import Mathlib

/-!
Verification development for the CleanSlate API (`src/api/index.py`).

The embedding models the session/history state machine, the command
pipeline (reset / normal branch with Inspection vs Action classification),
the upload decode-strategy chain, the preview formatter, and the error
handler of `process_command`.  Pandas DataFrames are modelled as `Table`:
ordered named columns over rows of typed cell values.  The LLM call and
`exec` are treated as oracles: the generated code text and the post-`exec`
local-variable scope are parameters of the pipeline functions.
-/

namespace CleanSlate

/-- A cell value of a table.  `num` carries only finite numerics; the
non-finite sentinels NaN, +inf and -inf are separate constructors so the
preview formatter's `replace` step can be stated exactly. -/
inductive Value where
  | num (x : ℚ)
  | nan
  | inf
  | neginf
  | text (s : String)
  | boolean (b : Bool)
  | null
deriving DecidableEq, Repr

/-- A non-finite numeric sentinel (NaN, +inf, -inf). -/
def Value.isNonFinite : Value → Bool
  | .nan => true
  | .inf => true
  | .neginf => true
  | _ => false

/-- In-memory table: ordered named columns, rows of cells
(`pd.DataFrame`). -/
structure Table where
  columns : List String
  rows : List (List Value)
deriving DecidableEq, Repr

/-- Well-formed table: every row has one cell per column. -/
def Table.WF (t : Table) : Prop :=
  ∀ r ∈ t.rows, r.length = t.columns.length

/-! ## Session history operations (`src/api/index.py`)

`data_store[file_id] = {"original": df.copy(), "history": [df.copy()], ...}`;
history is mutated by the process/undo endpoints.  Copies are structural,
so in the embedding a copy is the value itself. -/

/-- `# MEMORY SAFETY: Limit history to 4 items (Original + 3 Undos)`. -/
def histBound : Nat := 4

/-- Action commit, lines 276-280: `history.append(df_modified)`, then
`if len(history) > 4: history.pop(1)` (remove oldest change, keep the
original at index 0). -/
def commitMutation (h : List Table) (t : Table) : List Table :=
  if (h ++ [t]).length > histBound then (h ++ [t]).eraseIdx 1 else h ++ [t]

/-- Undo, lines 132-133: `if len(history) > 1: history.pop()`. -/
def undoHistory (h : List Table) : List Table :=
  if h.length > 1 then h.dropLast else h

/-- The `/api/undo` endpoint: pop when possible, then read
`history[-1]` as the current table. -/
def undoEndpoint (h : List Table) : List Table × Option Table :=
  (undoHistory h, (undoHistory h).getLast?)

/-- Reset, lines 159-160: `data_store[file_id]["history"] = [original.copy()]`. -/
def resetHistory (original : Table) : List Table :=
  [original]

/-- One history-mutating operation after session creation. -/
inductive Op where
  | commit (t : Table)
  | undo
  | reset
deriving DecidableEq, Repr

/-- Apply one operation to the history of a session whose immutable
original table is `original`. -/
def applyOp (original : Table) (h : List Table) : Op → List Table
  | .commit t => commitMutation h t
  | .undo => undoHistory h
  | .reset => resetHistory original

/-- Apply a sequence of operations in order. -/
def applyOps (original : Table) (h : List Table) (ops : List Op) : List Table :=
  ops.foldl (applyOp original) h

/-- The history invariant: non-empty, bounded by `histBound`, and the
original sits at index 0. -/
def histInv (original : Table) (h : List Table) : Prop :=
  1 ≤ h.length ∧ h.length ≤ histBound ∧ h.head? = some original

theorem eraseIdx_one_cons_cons (a b : α) (l : List α) :
    (a :: b :: l).eraseIdx 1 = a :: l := rfl

theorem getLast?_append_singleton (l : List α) (a : α) :
    (l ++ [a]).getLast? = some a := by
  rw [List.getLast?_append_cons]
  rfl

theorem commitMutation_getLast (h : List Table) (t : Table) :
    (commitMutation h t).getLast? = some t := by
  rw [commitMutation]
  by_cases hlen : (h ++ [t]).length > histBound
  · rw [if_pos hlen]
    match h with
    | [] => simp [histBound] at hlen
    | [a] => simp [histBound] at hlen
    | a :: b :: rest =>
        rw [List.cons_append, List.cons_append, eraseIdx_one_cons_cons,
          ← List.cons_append]
        exact getLast?_append_singleton _ t
  · rw [if_neg hlen]
    exact getLast?_append_singleton h t

theorem commitMutation_overflow (h : List Table) (t : Table)
    (hlen : (h ++ [t]).length > histBound) :
    commitMutation h t = h.take 1 ++ (h.drop 2 ++ [t]) := by
  rw [commitMutation, if_pos hlen]
  match h with
  | [] => simp [histBound] at hlen
  | [a] => simp [histBound] at hlen
  | a :: b :: rest =>
      rw [List.cons_append, List.cons_append, eraseIdx_one_cons_cons]
      simp

theorem histInv_commit (original : Table) (h : List Table) (t : Table)
    (hi : histInv original h) : histInv original (commitMutation h t) := by
  obtain ⟨h1, h4, hhd⟩ := hi
  rw [histInv, commitMutation]
  by_cases hlen : (h ++ [t]).length > histBound
  · rw [if_pos hlen]
    match h, h4, hhd, hlen with
    | [], _, _, hlen => simp [histBound] at hlen
    | [a], _, _, hlen => simp [histBound] at hlen
    | a :: b :: rest, h4, hhd, hlen =>
        rw [List.cons_append, List.cons_append, eraseIdx_one_cons_cons]
        refine ⟨by simp, ?_, by simpa using hhd⟩
        simp only [List.length_cons, histBound] at h4 ⊢
        simp only [List.length_append, List.length_cons, List.length_nil]
        omega
  · rw [if_neg hlen]
    refine ⟨by simp, ?_, ?_⟩
    · simp only [List.length_append, List.length_cons, List.length_nil,
        gt_iff_lt, not_lt] at hlen ⊢
      omega
    · match h, h1, hhd with
      | [], h1, _ => simp at h1
      | a :: rest, _, hhd => simpa using hhd

theorem histInv_undo (original : Table) (h : List Table)
    (hi : histInv original h) : histInv original (undoHistory h) := by
  obtain ⟨h1, h4, hhd⟩ := hi
  rw [histInv, undoHistory]
  by_cases hlen : h.length > 1
  · rw [if_pos hlen]
    match h, hlen, hhd with
    | [], hlen, _ => simp at hlen
    | [a], hlen, _ => simp at hlen
    | a :: b :: rest, hlen, hhd =>
        rw [List.dropLast_cons₂]
        refine ⟨by simp, ?_, by simpa using hhd⟩
        simp only [List.length_cons] at h4 ⊢
        have := (b :: rest).dropLast.length
        simp only [List.length_dropLast, List.length_cons]
        omega
  · rw [if_neg hlen]
    exact ⟨h1, h4, hhd⟩

theorem histInv_reset (original : Table) :
    histInv original (resetHistory original) := by
  refine ⟨by simp [resetHistory], by simp [resetHistory, histBound], by simp [resetHistory]⟩

theorem histInv_applyOp (original : Table) (h : List Table) (op : Op)
    (hi : histInv original h) : histInv original (applyOp original h op) := by
  cases op with
  | commit t => exact histInv_commit original h t hi
  | undo => exact histInv_undo original h hi
  | reset => exact histInv_reset original

theorem histInv_applyOps (original : Table) (h : List Table) (ops : List Op)
    (hi : histInv original h) : histInv original (applyOps original h ops) := by
  induction ops generalizing h with
  | nil => exact hi
  | cons op rest ih =>
      exact ih (applyOp original h op) (histInv_applyOp original h op hi)

theorem histInv_initial (original : Table) : histInv original [original] := by
  refine ⟨by simp, by simp [histBound], by simp⟩

/-- A concrete one-column table used in witnesses. -/
def sampleT1 : Table := ⟨["name"], [[Value.text "Ann"]]⟩

/-- A second concrete table, structurally different from `sampleT1`. -/
def sampleT2 : Table := ⟨["name"], [[Value.text "Bob"]]⟩

/-- A third concrete table. -/
def sampleT3 : Table := ⟨["name"], [[Value.text "Cid"]]⟩

/-- Operation sequence used by the C1 witness: three Action commits after
creation, filling the history to the bound. -/
def c1ops : List Op := [Op.commit sampleT2, Op.commit sampleT3, Op.commit sampleT2]

/-- C1: after any sequence of accepted Action commits, undo and reset
operations following session creation, the history length stays between 1
and the bound of 4, `history[0]` is structurally equal to the session's
original table, and a commit leaves the committed table at `history[-1]`;
when a commit makes the length exceed the bound, the element at index 1
(the oldest non-original entry) is removed, never index 0 or the newest
tail. -/
theorem c1_history_bound_invariant (original : Table) (ops : List Op) (t : Table) :
    1 ≤ (applyOps original [original] ops).length ∧
    (applyOps original [original] ops).length ≤ 4 ∧
    (applyOps original [original] ops).head? = some original ∧
    (commitMutation (applyOps original [original] ops) t).getLast? = some t ∧
    (((applyOps original [original] ops) ++ [t]).length > histBound →
      commitMutation (applyOps original [original] ops) t
        = (applyOps original [original] ops).take 1
            ++ ((applyOps original [original] ops).drop 2 ++ [t])) := by
  obtain ⟨h1, h4, hhd⟩ :=
    histInv_applyOps original [original] ops (histInv_initial original)
  exact ⟨h1, h4, hhd, commitMutation_getLast _ t, commitMutation_overflow _ t⟩

/-- Witness for C1 at a concrete session: three commits fill the history
to the bound and a fourth commit evicts index 1. -/
theorem c1_history_bound_invariant_witness :
    1 ≤ (applyOps sampleT1 [sampleT1] c1ops).length ∧
    (applyOps sampleT1 [sampleT1] c1ops).length ≤ 4 ∧
    (applyOps sampleT1 [sampleT1] c1ops).head? = some sampleT1 ∧
    (commitMutation (applyOps sampleT1 [sampleT1] c1ops) sampleT2).getLast? = some sampleT2 ∧
    ((applyOps sampleT1 [sampleT1] c1ops) ++ [sampleT2]).length > histBound ∧
    commitMutation (applyOps sampleT1 [sampleT1] c1ops) sampleT2
      = (applyOps sampleT1 [sampleT1] c1ops).take 1
          ++ ((applyOps sampleT1 [sampleT1] c1ops).drop 2 ++ [sampleT2]) := by
  have h := c1_history_bound_invariant sampleT1 c1ops sampleT2
  exact ⟨h.1, h.2.1, h.2.2.1, h.2.2.2.1, by decide, h.2.2.2.2 (by decide)⟩

/-! ## The command pipeline (`process_command`, lines 147-308)

The LLM call and `exec` are oracles: the generated fragment text `code`
and the post-`exec` local-variable scope are passed in as parameters. -/

/-- A Python value visible in the `exec` scope: either a pandas DataFrame
(modelled as `Table`) or any other value. -/
inductive PyVal where
  | table (t : Table)
  | otherVal
deriving DecidableEq, Repr

/-- `isinstance(v, pd.DataFrame)`. -/
def PyVal.isDataFrame : PyVal → Bool
  | .table _ => true
  | .otherVal => false

/-- The `local_vars` dictionary after `exec(code, \x7b\x7d, local_vars)`. -/
abbrev Scope := List (String × PyVal)

/-- Dictionary lookup `local_vars[name]` / membership `name in local_vars`. -/
def lookupVar (s : Scope) (name : String) : Option PyVal :=
  (s.find? (fun p => p.1 == name)).map (·.2)

/-- Line 266: `"result" in local_vars and
isinstance(local_vars["result"], pd.DataFrame)`. -/
def classifyInspection (s : Scope) : Bool :=
  match lookupVar s "result" with
  | some v => v.isDataFrame
  | none => false

/-- Outcome of the normal (non-reset) branch of `process_command` after a
successful `exec`: the displayed table, the new history, the dead local
variable `message` (lines 269/282) and the `"message"` field actually
returned (line 288). -/
structure NormalResult where
  displayTable : Table
  newHistory : List Table
  internalMessage : String
  responseMessage : String
deriving DecidableEq, Repr

/-- Lines 266-293: classify the executed fragment as Inspection (a
DataFrame named `result` exists in the scope: display it, leave history
alone) or Action (commit `local_vars["df"]`, the working copy).  `none`
models the paths where the subsequent accesses raise (no table bound to
`df`), which fall into the `except` handler. -/
def processNormal (history : List Table) (scope : Scope) (code : String) :
    Option NormalResult :=
  match lookupVar scope "result" with
  | some (PyVal.table t) =>
      some { displayTable := t,
             newHistory := history,
             internalMessage := "Executed: " ++ code ++ " (Viewing Mode)",
             responseMessage := "Executed: " ++ code }
  | _ =>
      match lookupVar scope "df" with
      | some (PyVal.table t) =>
          some { displayTable := t,
                 newHistory := commitMutation history t,
                 internalMessage := "Executed: " ++ code,
                 responseMessage := "Executed: " ++ code }
      | _ => none

/-- The reset synonyms of line 157. -/
def resetSynonyms : List String :=
  ["reset", "restart", "restore", "reset data", "restore original", "start over"]

/-- Python whitespace as removed by `str.strip()`. -/
def isPySpace (c : Char) : Bool :=
  c = ' ' || c = '\t' || c = '\n' || c = '\r' || c = Char.ofNat 11 || c = Char.ofNat 12

/-- Python `str.strip()`: remove whitespace from both ends. -/
def pyStrip (s : String) : String :=
  ⟨((s.data.dropWhile isPySpace).reverse.dropWhile isPySpace).reverse⟩

/-- Python `str.lower()` (ASCII case folding suffices for the queries and
synonyms involved). -/
def pyLower (s : String) : String :=
  ⟨s.data.map Char.toLower⟩

/-- Line 150: `query = request.query.strip().lower()`. -/
def normalizeQuery (q : String) : String :=
  pyLower (pyStrip q)

/-- Line 157: `if query in [...]`. -/
def isResetQuery (q : String) : Bool :=
  resetSynonyms.contains (normalizeQuery q)

/-- The prompt context sent to the CodeGenerator (lines 175-237):
`df.info()` output, the `df.describe()` summary (or the fallback marker),
head/tail samples, and the query text embedded at line 204. -/
structure GenerationContext where
  dfInfo : String
  statsSummary : String
  headSample : String
  tailSample : String
  queryText : String
deriving DecidableEq, Repr

/-- Build the GenerationContext for a request.  The strings produced by
`df.info()`, `df.head(5).to_string()` and `df.tail(5).to_string()` are
oracles; `statsOutcome = none` models `df.describe()` raising, replaced
by the `"No numeric data"` marker (lines 182-185).  The embedded query is
the one assigned at line 150: `request.query.strip().lower()`. -/
def contextForRequest (rawQuery dfInfo headSample tailSample : String)
    (statsOutcome : Option String) : GenerationContext :=
  { dfInfo := dfInfo,
    statsSummary := statsOutcome.getD "No numeric data",
    headSample := headSample,
    tailSample := tailSample,
    queryText := normalizeQuery rawQuery }

/-- The successful response of `process_command`: the JSON fields plus
the model-level bookkeeping (new history, the context sent to the
generator — `none` when the generator was never called — and the dead
internal `message` variable). -/
structure ProcessResponse where
  message : String
  generated_code : String
  displayTable : Table
  newHistory : List Table
  sentContext : Option GenerationContext
  internalMessage : String
deriving DecidableEq, Repr

/-- `process_command` (lines 147-293), successful paths.  Reset branch:
history becomes `[original.copy()]`, the original is previewed, the
synthetic marker `"# Reset executed"` stands in for generated code, and
no context is sent to the generator.  Normal branch: build the context,
call the generator (oracle `code`), execute (oracle `scope`), classify. -/
def processCommand (original : Table) (history : List Table) (rawQuery : String)
    (dfInfo headSample tailSample : String) (statsOutcome : Option String)
    (code : String) (scope : Scope) : Option ProcessResponse :=
  if isResetQuery rawQuery then
    some { message := "🔄 Data reset to original.",
           generated_code := "# Reset executed",
           displayTable := original,
           newHistory := [original],
           sentContext := none,
           internalMessage := "🔄 Data reset to original." }
  else
    (processNormal history scope code).map fun nr =>
      { message := nr.responseMessage,
        generated_code := code,
        displayTable := nr.displayTable,
        newHistory := nr.newHistory,
        sentContext := some (contextForRequest rawQuery dfInfo headSample tailSample statsOutcome),
        internalMessage := nr.internalMessage }

/-! ## The `except` handler of `process_command` (lines 295-308) -/

/-- Where in the `try` body an exception was raised, relative to the
assignment of the local variable `code` at line 249: during
context-building (lines 172-185), during the generator call or response
handling (lines 240-247), or during/after execution of the fragment
(line 263 onwards, `code` already assigned). -/
inductive FailStage where
  | contextBuild
  | generationCall
  | execution (code : String)
deriving DecidableEq, Repr

/-- What the `except` handler produces: the structured JSON payload
`error / failed_code / trace`, or an unhandled secondary exception. -/
inductive ErrorOutcome where
  | structured (errorMsg failedCode trace : String)
  | unhandled
deriving DecidableEq, Repr

/-- Whether the caller received the structured payload. -/
def ErrorOutcome.isStructured : ErrorOutcome → Bool
  | .structured _ _ _ => true
  | .unhandled => false

/-- The `except` handler, lines 295-308: it builds
`content = \x7b"error": error_msg, "failed_code": code, "trace": full_trace\x7d`.
The name `code` is a local of `process_command` first assigned at line
249; if the exception was raised before that line (context-building or
the generator call), evaluating `code` inside the handler raises
UnboundLocalError, which escapes the handler — the caller then gets an
opaque 500 with no structured payload. -/
def exceptHandler (stage : FailStage) (errorMsg trace : String) : ErrorOutcome :=
  match stage with
  | .execution code => .structured errorMsg code trace
  | .contextBuild => .unhandled
  | .generationCall => .unhandled

/-! ## Claims about the command pipeline -/

theorem classifyInspection_iff (s : Scope) :
    classifyInspection s = true ↔
      ∃ t, lookupVar s "result" = some (PyVal.table t) := by
  unfold classifyInspection
  cases h : lookupVar s "result" with
  | none => simp
  | some v => cases v <;> simp [PyVal.isDataFrame]

theorem string_append_ne_self (s t : String) (ht : 0 < t.length) :
    s ++ t ≠ s := by
  intro h
  have hl := congrArg String.length h
  rw [String.length_append] at hl
  omega

/-- C2: after executing the fragment, the request is classified as
Inspection exactly when the scope binds a DataFrame named `result`; then
the `result` binding is previewed and history is unchanged in length and
last element; otherwise the request is an Action, the working copy bound
to `df` is committed to history and previewed. -/
theorem c2_mode_classification (history : List Table) (scope : Scope)
    (code : String) (nr : NormalResult)
    (hnr : processNormal history scope code = some nr) :
    (classifyInspection scope = true ↔
      ∃ t, lookupVar scope "result" = some (PyVal.table t)) ∧
    (classifyInspection scope = true →
      nr.newHistory = history ∧
      nr.newHistory.length = history.length ∧
      nr.newHistory.getLast? = history.getLast? ∧
      lookupVar scope "result" = some (PyVal.table nr.displayTable)) ∧
    (classifyInspection scope = false →
      lookupVar scope "df" = some (PyVal.table nr.displayTable) ∧
      nr.newHistory = commitMutation history nr.displayTable ∧
      nr.newHistory.getLast? = some nr.displayTable) := by
  refine ⟨classifyInspection_iff scope, ?_, ?_⟩
  · intro hins
    obtain ⟨t, ht⟩ := (classifyInspection_iff scope).1 hins
    unfold processNormal at hnr
    rw [ht] at hnr
    obtain rfl := Option.some.inj hnr
    exact ⟨rfl, rfl, rfl, ht⟩
  · intro hnotins
    unfold processNormal at hnr
    cases hres : lookupVar scope "result" with
    | some v =>
        cases v with
        | table t =>
            exact absurd ((classifyInspection_iff scope).2 ⟨t, hres⟩)
              (by rw [hnotins]; simp)
        | otherVal =>
            rw [hres] at hnr
            cases hdf : lookupVar scope "df" with
            | none => rw [hdf] at hnr; simp at hnr
            | some w =>
                cases w with
                | table t =>
                    rw [hdf] at hnr
                    obtain rfl := Option.some.inj hnr
                    exact ⟨rfl, rfl, commitMutation_getLast history t⟩
                | otherVal => rw [hdf] at hnr; simp at hnr
    | none =>
        rw [hres] at hnr
        cases hdf : lookupVar scope "df" with
        | none => rw [hdf] at hnr; simp at hnr
        | some w =>
            cases w with
            | table t =>
                rw [hdf] at hnr
                obtain rfl := Option.some.inj hnr
                exact ⟨rfl, rfl, commitMutation_getLast history t⟩
            | otherVal => rw [hdf] at hnr; simp at hnr

/-- Post-`exec` scope for the C2 witness: an Inspection scope. -/
def c2scope : Scope :=
  [("df", PyVal.table sampleT1), ("result", PyVal.table sampleT3)]

/-- Expected normal-branch outcome for the C2 witness. -/
def c2nr : NormalResult :=
  { displayTable := sampleT3,
    newHistory := [sampleT1],
    internalMessage := "Executed: result = df.head(1) (Viewing Mode)",
    responseMessage := "Executed: result = df.head(1)" }

/-- Witness for C2: a concrete Inspection request leaves the history
untouched and previews the `result` binding. -/
theorem c2_mode_classification_witness :
    processNormal [sampleT1] c2scope "result = df.head(1)" = some c2nr ∧
    ((classifyInspection c2scope = true ↔
        ∃ t, lookupVar c2scope "result" = some (PyVal.table t)) ∧
      (classifyInspection c2scope = true →
        c2nr.newHistory = [sampleT1] ∧
        c2nr.newHistory.length = ([sampleT1] : List Table).length ∧
        c2nr.newHistory.getLast? = ([sampleT1] : List Table).getLast? ∧
        lookupVar c2scope "result" = some (PyVal.table c2nr.displayTable)) ∧
      (classifyInspection c2scope = false →
        lookupVar c2scope "df" = some (PyVal.table c2nr.displayTable) ∧
        c2nr.newHistory = commitMutation [sampleT1] c2nr.displayTable ∧
        c2nr.newHistory.getLast? = some c2nr.displayTable)) :=
  ⟨by decide, c2_mode_classification [sampleT1] c2scope "result = df.head(1)" c2nr (by decide)⟩

/-- C3: undo removes the last history element exactly when more than the
original is present, is a no-op (not an error) at the boundary, and
repeated undo calls on an exhausted history keep returning the original
table. -/
theorem c3_undo_boundary (h : List Table) (t0 : Table) :
    (h.length > 1 → undoHistory h = h.dropLast ∧
      (undoHistory h).length = h.length - 1) ∧
    (¬ h.length > 1 → undoHistory h = h) ∧
    undoEndpoint [t0] = ([t0], some t0) ∧
    (∀ n : ℕ, undoEndpoint (undoHistory^[n] [t0]) = ([t0], some t0)) := by
  have hiter : ∀ n : ℕ, undoHistory^[n] [t0] = [t0] := by
    intro n
    induction n with
    | zero => rfl
    | succ n ih => rw [Function.iterate_succ_apply', ih]; rfl
  refine ⟨?_, ?_, rfl, ?_⟩
  · intro hlen
    rw [undoHistory, if_pos hlen]
    exact ⟨rfl, by rw [List.length_dropLast]⟩
  · intro hlen
    rw [undoHistory, if_neg hlen]
  · intro n
    rw [hiter n]
    rfl

/-- Witness for C3 at a concrete history of length 2 and a concrete
exhausted history. -/
theorem c3_undo_boundary_witness :
    ([sampleT1, sampleT2] : List Table).length > 1 ∧
    undoHistory [sampleT1, sampleT2] = [sampleT1] ∧
    (undoHistory [sampleT1, sampleT2]).length = 1 ∧
    undoEndpoint [sampleT3] = ([sampleT3], some sampleT3) ∧
    undoEndpoint (undoHistory^[5] [sampleT3]) = ([sampleT3], some sampleT3) := by
  have h := c3_undo_boundary [sampleT1, sampleT2] sampleT3
  have h2 := h.1 (by decide)
  refine ⟨by decide, ?_, ?_, h.2.2.1, h.2.2.2 5⟩
  · rw [h2.1]; rfl
  · rw [h2.2]; rfl

/-- C4: a query whose trimmed, case-folded text is a reset synonym
replaces the history by the single original table, previews the original
with the synthetic `"# Reset executed"` marker in place of generated
code, and never calls the CodeGenerator (`sentContext = none`); for a
session freshly created from an uploaded table `T`, instantiating
`original := T` and `history := [T]` shows the previewed table is
structurally equal to `T`. -/
theorem c4_reset_branch (original : Table) (history : List Table)
    (rawQuery dfInfo headSample tailSample code : String)
    (statsOutcome : Option String) (scope : Scope)
    (hq : isResetQuery rawQuery = true) :
    processCommand original history rawQuery dfInfo headSample tailSample
        statsOutcome code scope
      = some { message := "🔄 Data reset to original.",
               generated_code := "# Reset executed",
               displayTable := original,
               newHistory := [original],
               sentContext := none,
               internalMessage := "🔄 Data reset to original." } := by
  unfold processCommand
  rw [if_pos hq]

/-- Witness for C4: `" Start Over "` normalizes to the synonym
`"start over"` and resets a concrete two-entry session. -/
theorem c4_reset_branch_witness :
    isResetQuery " Start Over " = true ∧
    processCommand sampleT1 [sampleT1, sampleT2] " Start Over "
        "info" "head" "tail" none "df = df.dropna()" []
      = some { message := "🔄 Data reset to original.",
               generated_code := "# Reset executed",
               displayTable := sampleT1,
               newHistory := [sampleT1],
               sentContext := none,
               internalMessage := "🔄 Data reset to original." } :=
  ⟨by decide,
    c4_reset_branch sampleT1 [sampleT1, sampleT2] " Start Over "
      "info" "head" "tail" "df = df.dropna()" none [] (by decide)⟩

/-- C5 counterexample: a failure during the CodeGenerator call — before
line 249 assigned the local `code` — makes the `except` handler itself
raise (UnboundLocalError on `code`), so the caller does not receive the
structured payload, contradicting the claim that every failure during
context-building, generation, or execution yields a structured error. -/
theorem c5_structured_error_counterexample :
    (exceptHandler FailStage.generationCall "Connection error"
        "Traceback (most recent call last): ...").isStructured = false := rfl

/-- C5 amended: failures during execution of the generated fragment
(after `code` is assigned) return the structured payload carrying the
error message, the fragment text and the trace; failures during
context-building or the generator call leave the handler itself raising,
so no structured payload is produced. -/
theorem c5_structured_error_amended (code errorMsg trace : String) :
    exceptHandler (FailStage.execution code) errorMsg trace
      = ErrorOutcome.structured errorMsg code trace ∧
    (exceptHandler FailStage.contextBuild errorMsg trace).isStructured = false ∧
    (exceptHandler FailStage.generationCall errorMsg trace).isStructured = false :=
  ⟨rfl, rfl, rfl⟩

/-- C8 counterexample: at the literal query `"Show Rows Where Age > 35"`
the context sent to the generator carries the trimmed, case-folded text,
not the literal text as submitted. -/
theorem c8_literal_query_counterexample :
    (contextForRequest "Show Rows Where Age > 35" "info" "head" "tail"
        none).queryText ≠ "Show Rows Where Age > 35" := by decide

/-- C8 amended: in the normal branch, the GenerationContext sent to the
CodeGenerator contains the schema summary, head/tail samples and the
statistics summary (or its fallback marker) of the current table, and the
trimmed, case-folded query text — not the literal query as submitted. -/
theorem c8_generation_context_amended (original : Table) (history : List Table)
    (rawQuery dfInfo headSample tailSample code : String)
    (statsOutcome : Option String) (scope : Scope) (resp : ProcessResponse)
    (hq : isResetQuery rawQuery = false)
    (hr : processCommand original history rawQuery dfInfo headSample tailSample
        statsOutcome code scope = some resp) :
    resp.sentContext
      = some { dfInfo := dfInfo,
               statsSummary := statsOutcome.getD "No numeric data",
               headSample := headSample,
               tailSample := tailSample,
               queryText := normalizeQuery rawQuery } := by
  unfold processCommand at hr
  rw [if_neg (by simp [hq])] at hr
  cases hpn : processNormal history scope code with
  | none => rw [hpn] at hr; simp at hr
  | some nr =>
      rw [hpn] at hr
      simp only [Option.map_some'] at hr
      obtain rfl := Option.some.inj hr
      rfl

/-- Witness for C8 (amended) at a concrete Action request with an
uppercase query. -/
theorem c8_generation_context_amended_witness :
    isResetQuery "Show Rows Where Age > 35" = false ∧
    processCommand sampleT1 [sampleT1] "Show Rows Where Age > 35"
        "info" "head" "tail" none "df = df.dropna()"
        [("df", PyVal.table sampleT2)]
      = some { message := "Executed: df = df.dropna()",
               generated_code := "df = df.dropna()",
               displayTable := sampleT2,
               newHistory := [sampleT1, sampleT2],
               sentContext := some { dfInfo := "info",
                                     statsSummary := "No numeric data",
                                     headSample := "head",
                                     tailSample := "tail",
                                     queryText := "show rows where age > 35" },
               internalMessage := "Executed: df = df.dropna()" } ∧
    ({ dfInfo := "info", statsSummary := "No numeric data",
       headSample := "head", tailSample := "tail",
       queryText := "show rows where age > 35" } : GenerationContext).queryText
      = normalizeQuery "Show Rows Where Age > 35" := by
  refine ⟨by decide, by decide, ?_⟩
  have h := c8_generation_context_amended sampleT1 [sampleT1]
    "Show Rows Where Age > 35" "info" "head" "tail" "df = df.dropna()" none
    [("df", PyVal.table sampleT2)]
    { message := "Executed: df = df.dropna()",
      generated_code := "df = df.dropna()",
      displayTable := sampleT2,
      newHistory := [sampleT1, sampleT2],
      sentContext := some { dfInfo := "info",
                            statsSummary := "No numeric data",
                            headSample := "head",
                            tailSample := "tail",
                            queryText := "show rows where age > 35" },
      internalMessage := "Executed: df = df.dropna()" }
    (by decide) (by decide)
  exact congrArg GenerationContext.queryText (Option.some.inj h)

/-- C10: in the normal branch the returned `message` field is
`"Executed: " ++ code` for both classifications; the mode-specific
internal message (with the `" (Viewing Mode)"` marker for Inspection) is
computed but never returned, so the caller cannot tell the modes apart
from the message field. -/
theorem c10_message_field (original : Table) (history : List Table)
    (rawQuery dfInfo headSample tailSample code : String)
    (statsOutcome : Option String) (scope : Scope) (resp : ProcessResponse)
    (hq : isResetQuery rawQuery = false)
    (hr : processCommand original history rawQuery dfInfo headSample tailSample
        statsOutcome code scope = some resp) :
    resp.message = "Executed: " ++ code ∧
    (classifyInspection scope = true →
      resp.internalMessage = "Executed: " ++ code ++ " (Viewing Mode)" ∧
      resp.internalMessage ≠ resp.message) := by
  unfold processCommand at hr
  rw [if_neg (by simp [hq])] at hr
  cases hpn : processNormal history scope code with
  | none => rw [hpn] at hr; simp at hr
  | some nr =>
      rw [hpn] at hr
      simp only [Option.map_some'] at hr
      obtain rfl := Option.some.inj hr
      constructor
      · show nr.responseMessage = "Executed: " ++ code
        unfold processNormal at hpn
        cases hres : lookupVar scope "result" with
        | none =>
            rw [hres] at hpn
            cases hdf : lookupVar scope "df" with
            | none => rw [hdf] at hpn; simp at hpn
            | some w =>
                cases w with
                | table t => rw [hdf] at hpn; obtain rfl := Option.some.inj hpn; rfl
                | otherVal => rw [hdf] at hpn; simp at hpn
        | some v =>
            cases v with
            | table t => rw [hres] at hpn; obtain rfl := Option.some.inj hpn; rfl
            | otherVal =>
                rw [hres] at hpn
                cases hdf : lookupVar scope "df" with
                | none => rw [hdf] at hpn; simp at hpn
                | some w =>
                    cases w with
                    | table t => rw [hdf] at hpn; obtain rfl := Option.some.inj hpn; rfl
                    | otherVal => rw [hdf] at hpn; simp at hpn
      · intro hins
        obtain ⟨t, ht⟩ := (classifyInspection_iff scope).1 hins
        unfold processNormal at hpn
        rw [ht] at hpn
        obtain rfl := Option.some.inj hpn
        refine ⟨?_, ?_⟩
        · show "Executed: " ++ code ++ " (Viewing Mode)"
            = "Executed: " ++ code ++ " (Viewing Mode)"
          rfl
        · show "Executed: " ++ code ++ " (Viewing Mode)" ≠ "Executed: " ++ code
          intro hcontra
          have hl := congrArg String.length hcontra
          simp only [String.length_append] at hl
          have h15 : (" (Viewing Mode)" : String).length = 15 := by decide
          omega

/-! ## Upload decode strategies (`upload_file`, lines 54-95) -/

/-- Outcome of one underlying pandas reader on the uploaded bytes:
`pd.read_excel`, `pd.read_csv` with default UTF-8, or
`pd.read_csv(encoding='latin1')`.  Re-reading the same bytes gives the
same outcome each time (the stream is reset with `seek(0)` before every
attempt), so the excel outcome is shared between strategies A and C. -/
inductive ReadOutcome where
  | ok (t : Table)
  | unicodeError (msg : String)
  | otherError (msg : String)
deriving DecidableEq, Repr

/-- Whether the reader produced a frame. -/
def ReadOutcome.isOk : ReadOutcome → Bool
  | .ok _ => true
  | _ => false

/-- The four strategies of the smart reader, in source order:
A (lines 60-64), B (lines 67-75), C (lines 78-83), D (lines 86-91). -/
inductive Strategy where
  | excelByName
  | csvUtf8Default
  | excelFallback
  | csvLatin1
deriving DecidableEq, Repr

/-- State threaded through the strategy chain: the decoded frame (if
any), the `error_log`, and which strategies were attempted. -/
structure ReaderState where
  df : Option Table
  errorLog : List String
  attempted : List Strategy
deriving DecidableEq, Repr

/-- The smart reader of `upload_file`.  Strategy A runs only when the
declared filename ends in `.xlsx`/`.xls`; each later strategy runs only
while `df is None`; every failing attempt appends one diagnostic to
`error_log` (strategy B distinguishes `UnicodeDecodeError` in its
message). -/
def decodeUpload (spreadsheetExt : Bool) (excel csvUtf8 csvLatin : ReadOutcome) :
    ReaderState :=
  let s1 : ReaderState :=
    if spreadsheetExt then
      match excel with
      | .ok t => ⟨some t, [], [.excelByName]⟩
      | .unicodeError m => ⟨none, ["Excel read failed: " ++ m], [.excelByName]⟩
      | .otherError m => ⟨none, ["Excel read failed: " ++ m], [.excelByName]⟩
    else ⟨none, [], []⟩
  let s2 : ReaderState :=
    if s1.df.isNone then
      match csvUtf8 with
      | .ok t => ⟨some t, s1.errorLog, s1.attempted ++ [.csvUtf8Default]⟩
      | .unicodeError _ =>
          ⟨none, s1.errorLog ++ ["CSV UTF-8 failed (Binary detected)"],
            s1.attempted ++ [.csvUtf8Default]⟩
      | .otherError m =>
          ⟨none, s1.errorLog ++ ["CSV read failed: " ++ m],
            s1.attempted ++ [.csvUtf8Default]⟩
    else s1
  let s3 : ReaderState :=
    if s2.df.isNone then
      match excel with
      | .ok t => ⟨some t, s2.errorLog, s2.attempted ++ [.excelFallback]⟩
      | .unicodeError m =>
          ⟨none, s2.errorLog ++ ["Excel fallback failed: " ++ m],
            s2.attempted ++ [.excelFallback]⟩
      | .otherError m =>
          ⟨none, s2.errorLog ++ ["Excel fallback failed: " ++ m],
            s2.attempted ++ [.excelFallback]⟩
    else s2
  let s4 : ReaderState :=
    if s3.df.isNone then
      match csvLatin with
      | .ok t => ⟨some t, s3.errorLog, s3.attempted ++ [.csvLatin1]⟩
      | .unicodeError m =>
          ⟨none, s3.errorLog ++ ["CSV Latin1 failed: " ++ m],
            s3.attempted ++ [.csvLatin1]⟩
      | .otherError m =>
          ⟨none, s3.errorLog ++ ["CSV Latin1 failed: " ++ m],
            s3.attempted ++ [.csvLatin1]⟩
    else s3
  s4

/-- Lines 93-95: if no strategy produced a frame, the upload fails with
the joined `error_log` (the `UnreadableFile` error). -/
inductive UploadOutcome where
  | ok (t : Table)
  | unreadableFile (attempts : List String)
deriving DecidableEq, Repr

/-- Final outcome of the decode portion of `upload_file`. -/
def uploadDecode (spreadsheetExt : Bool) (excel csvUtf8 csvLatin : ReadOutcome) :
    UploadOutcome :=
  match (decodeUpload spreadsheetExt excel csvUtf8 csvLatin).df with
  | some t => .ok t
  | none => .unreadableFile (decodeUpload spreadsheetExt excel csvUtf8 csvLatin).errorLog

/-- Whether the upload failed with `UnreadableFile`. -/
def UploadOutcome.isUnreadable : UploadOutcome → Bool
  | .unreadableFile _ => true
  | _ => false

/-- Specification-side definition (the spec's words, to compare with the
source's chain): the fixed strategy priority order — spreadsheet decode
only when the declared filename has a spreadsheet extension, then
delimited-text decode, spreadsheet fallback, legacy-encoding text
decode. -/
def strategyOrder (spreadsheetExt : Bool) : List Strategy :=
  (if spreadsheetExt then [Strategy.excelByName] else [])
    ++ [Strategy.csvUtf8Default, Strategy.excelFallback, Strategy.csvLatin1]

/-- Which underlying reader each strategy runs. -/
def runStrategy (excel csvUtf8 csvLatin : ReadOutcome) : Strategy → ReadOutcome
  | .excelByName => excel
  | .csvUtf8Default => csvUtf8
  | .excelFallback => excel
  | .csvLatin1 => csvLatin

/-- Specification-side definition: first-success scan — the decoded
table is the one produced by the first succeeding strategy in priority
order. -/
def specFirstSuccess (run : Strategy → ReadOutcome) : List Strategy → Option Table
  | [] => none
  | s :: rest =>
      match run s with
      | .ok t => some t
      | _ => specFirstSuccess run rest

/-- Specification-side definition: the attempted strategies — every
strategy up to and including the first success, or all of them when none
succeeds. -/
def specAttempted (run : Strategy → ReadOutcome) : List Strategy → List Strategy
  | [] => []
  | s :: rest =>
      match run s with
      | .ok _ => [s]
      | _ => s :: specAttempted run rest

/-- C6: decode tries the strategies in the fixed priority order —
spreadsheet-by-extension, default-encoding delimited text, spreadsheet
fallback, legacy-encoding text — stopping at the first success, and the
spreadsheet fallback is attempted whenever the text decode of step 2 was
attempted and failed with a byte-validity error. -/
theorem c6_decode_strategy_order (ext : Bool) (excel csvUtf8 csvLatin : ReadOutcome) :
    (decodeUpload ext excel csvUtf8 csvLatin).df
      = specFirstSuccess (runStrategy excel csvUtf8 csvLatin) (strategyOrder ext) ∧
    (decodeUpload ext excel csvUtf8 csvLatin).attempted
      = specAttempted (runStrategy excel csvUtf8 csvLatin) (strategyOrder ext) ∧
    (∀ m, csvUtf8 = ReadOutcome.unicodeError m →
      Strategy.csvUtf8Default ∈ (decodeUpload ext excel csvUtf8 csvLatin).attempted →
      Strategy.excelFallback ∈ (decodeUpload ext excel csvUtf8 csvLatin).attempted) := by
  cases ext <;> cases excel <;> cases csvUtf8 <;> cases csvLatin <;>
    simp [decodeUpload, specFirstSuccess, specAttempted, strategyOrder, runStrategy]

/-- Witness for C6: a wrongly named binary upload — strategy B fails
with a byte-validity error and the spreadsheet fallback succeeds. -/
theorem c6_decode_strategy_order_witness :
    ((decodeUpload false (ReadOutcome.ok sampleT2)
        (ReadOutcome.unicodeError "invalid start byte")
        (ReadOutcome.otherError "bad line")).df
      = specFirstSuccess
          (runStrategy (ReadOutcome.ok sampleT2)
            (ReadOutcome.unicodeError "invalid start byte")
            (ReadOutcome.otherError "bad line"))
          (strategyOrder false)) ∧
    ((decodeUpload false (ReadOutcome.ok sampleT2)
        (ReadOutcome.unicodeError "invalid start byte")
        (ReadOutcome.otherError "bad line")).attempted
      = specAttempted
          (runStrategy (ReadOutcome.ok sampleT2)
            (ReadOutcome.unicodeError "invalid start byte")
            (ReadOutcome.otherError "bad line"))
          (strategyOrder false)) ∧
    Strategy.excelFallback ∈ (decodeUpload false (ReadOutcome.ok sampleT2)
        (ReadOutcome.unicodeError "invalid start byte")
        (ReadOutcome.otherError "bad line")).attempted :=
  have h := c6_decode_strategy_order false (ReadOutcome.ok sampleT2)
    (ReadOutcome.unicodeError "invalid start byte") (ReadOutcome.otherError "bad line")
  ⟨h.1, h.2.1, h.2.2 "invalid start byte" rfl (by decide)⟩

/-- C7: the upload fails with `UnreadableFile` exactly when every
underlying decode strategy fails, and then the error carries one
diagnostic for every attempted strategy (all strategies of the priority
order were attempted). -/
theorem c7_unreadable_iff_all_fail (ext : Bool) (excel csvUtf8 csvLatin : ReadOutcome) :
    ((uploadDecode ext excel csvUtf8 csvLatin).isUnreadable = true ↔
      excel.isOk = false ∧ csvUtf8.isOk = false ∧ csvLatin.isOk = false) ∧
    ((uploadDecode ext excel csvUtf8 csvLatin).isUnreadable = true →
      uploadDecode ext excel csvUtf8 csvLatin
        = UploadOutcome.unreadableFile (decodeUpload ext excel csvUtf8 csvLatin).errorLog ∧
      (decodeUpload ext excel csvUtf8 csvLatin).attempted = strategyOrder ext ∧
      (decodeUpload ext excel csvUtf8 csvLatin).errorLog.length
        = (strategyOrder ext).length) := by
  cases ext <;> cases excel <;> cases csvUtf8 <;> cases csvLatin <;>
    simp [uploadDecode, decodeUpload, strategyOrder,
      ReadOutcome.isOk, UploadOutcome.isUnreadable]

/-- Witness for C7: malformed bytes none of the readers accept, declared
with a spreadsheet extension — all four strategies are attempted and the
error lists four diagnostics. -/
theorem c7_unreadable_iff_all_fail_witness :
    ((uploadDecode true (ReadOutcome.otherError "not a zip")
        (ReadOutcome.unicodeError "invalid continuation byte")
        (ReadOutcome.otherError "tokenizing error")).isUnreadable = true) ∧
    (uploadDecode true (ReadOutcome.otherError "not a zip")
        (ReadOutcome.unicodeError "invalid continuation byte")
        (ReadOutcome.otherError "tokenizing error"))
      = UploadOutcome.unreadableFile
          (decodeUpload true (ReadOutcome.otherError "not a zip")
            (ReadOutcome.unicodeError "invalid continuation byte")
            (ReadOutcome.otherError "tokenizing error")).errorLog ∧
    (decodeUpload true (ReadOutcome.otherError "not a zip")
        (ReadOutcome.unicodeError "invalid continuation byte")
        (ReadOutcome.otherError "tokenizing error")).attempted = strategyOrder true ∧
    (decodeUpload true (ReadOutcome.otherError "not a zip")
        (ReadOutcome.unicodeError "invalid continuation byte")
        (ReadOutcome.otherError "tokenizing error")).errorLog.length
      = (strategyOrder true).length := by
  have h := c7_unreadable_iff_all_fail true (ReadOutcome.otherError "not a zip")
    (ReadOutcome.unicodeError "invalid continuation byte")
    (ReadOutcome.otherError "tokenizing error")
  have hu : (uploadDecode true (ReadOutcome.otherError "not a zip")
      (ReadOutcome.unicodeError "invalid continuation byte")
      (ReadOutcome.otherError "tokenizing error")).isUnreadable = true :=
    h.1.2 ⟨rfl, rfl, rfl⟩
  exact ⟨hu, (h.2 hu).1, (h.2 hu).2.1, (h.2 hu).2.2⟩

/-! ## Preview formatter -/

/-- One cell of
`replace(\x7bnp.nan: None, np.inf: None, -np.inf: None\x7d)`: the
non-finite sentinels become an explicit null. -/
def sanitizeCell : Value → Value
  | .nan => .null
  | .inf => .null
  | .neginf => .null
  | v => v

/-- `df.head(limit).replace(...).to_dict(orient='records')` (lines 106,
138, 162, 285): the first `limit` rows as ordered
column-name-to-value records. -/
def previewRecords (t : Table) (limit : Nat) : List (List (String × Value)) :=
  (t.rows.take limit).map fun row => t.columns.zip (row.map sanitizeCell)

/-- `head` and `replace` both return fresh frames; the pair models
(preview, the input table after the call). -/
def previewAndSource (t : Table) (limit : Nat) :
    List (List (String × Value)) × Table :=
  (previewRecords t limit, t)

theorem sanitizeCell_not_nonFinite (v : Value) :
    (sanitizeCell v).isNonFinite = false := by
  cases v <;> rfl

/-- C9: the preview formatter returns exactly the first `limit` rows (at
most `limit` row mappings), keys each mapping by the column names in
column order, maps cell values through the non-finite-to-null
substitution only, never emits a non-finite numeric value, and leaves
the input table unchanged. -/
theorem c9_preview_formatter (t : Table) (limit : Nat) (hwf : Table.WF t) :
    (previewRecords t limit).length = min limit t.rows.length ∧
    (previewRecords t limit).length ≤ limit ∧
    (∀ r ∈ previewRecords t limit, r.map Prod.fst = t.columns) ∧
    ((previewRecords t limit).map (List.map Prod.snd)
      = (t.rows.take limit).map (List.map sanitizeCell)) ∧
    (∀ r ∈ previewRecords t limit, ∀ p ∈ r, p.2.isNonFinite = false) ∧
    (previewAndSource t limit).2 = t := by
  refine ⟨?_, ?_, ?_, ?_, ?_, rfl⟩
  · simp [previewRecords]
  · simp only [previewRecords, List.length_map, List.length_take]
    exact Nat.min_le_left _ _
  · intro r hr
    simp only [previewRecords, List.mem_map] at hr
    obtain ⟨row, hrow, rfl⟩ := hr
    have hlen : (row.map sanitizeCell).length = t.columns.length := by
      rw [List.length_map]
      exact hwf row (List.mem_of_mem_take hrow)
    exact List.map_fst_zip _ _ (le_of_eq hlen.symm)
  · rw [previewRecords, List.map_map]
    refine List.map_congr_left ?_
    intro row hrow
    have hlen : (row.map sanitizeCell).length = t.columns.length := by
      rw [List.length_map]
      exact hwf row (List.mem_of_mem_take hrow)
    exact List.map_snd_zip _ _ (le_of_eq hlen)
  · intro r hr p hp
    simp only [previewRecords, List.mem_map] at hr
    obtain ⟨row, _, rfl⟩ := hr
    have h2 := (List.of_mem_zip hp).2
    simp only [List.mem_map] at h2
    obtain ⟨v, _, hv⟩ := h2
    rw [← hv]
    exact sanitizeCell_not_nonFinite v

/-- A concrete table with non-finite cells for the C9 witness. -/
def c9table : Table :=
  ⟨["name", "age"],
    [[Value.text "Ann", Value.num 30],
     [Value.text "Bob", Value.nan],
     [Value.text "Cid", Value.inf]]⟩

/-- Witness for C9 at the concrete table and limit 2. -/
theorem c9_preview_formatter_witness :
    (previewRecords c9table 2).length = min 2 c9table.rows.length ∧
    (previewRecords c9table 2).length ≤ 2 ∧
    (∀ r ∈ previewRecords c9table 2, r.map Prod.fst = c9table.columns) ∧
    ((previewRecords c9table 2).map (List.map Prod.snd)
      = (c9table.rows.take 2).map (List.map sanitizeCell)) ∧
    (∀ r ∈ previewRecords c9table 2, ∀ p ∈ r, p.2.isNonFinite = false) ∧
    (previewAndSource c9table 2).2 = c9table :=
  c9_preview_formatter c9table 2
    (show ∀ r ∈ c9table.rows, r.length = c9table.columns.length by decide)

/-- Post-`exec` scope for the C10 witness: an Inspection scope. -/
def c10scope : Scope :=
  [("df", PyVal.table sampleT1), ("result", PyVal.table sampleT3)]

/-- Witness for C10 at a concrete Inspection request: the returned
message omits the `" (Viewing Mode)"` marker of the internal message. -/
theorem c10_message_field_witness :
    isResetQuery "show rows where age > 35" = false ∧
    classifyInspection c10scope = true ∧
    processCommand sampleT1 [sampleT1] "show rows where age > 35"
        "info" "head" "tail" none "result = df[df.age > 35]" c10scope
      = some { message := "Executed: result = df[df.age > 35]",
               generated_code := "result = df[df.age > 35]",
               displayTable := sampleT3,
               newHistory := [sampleT1],
               sentContext := some { dfInfo := "info",
                                     statsSummary := "No numeric data",
                                     headSample := "head",
                                     tailSample := "tail",
                                     queryText := "show rows where age > 35" },
               internalMessage :=
                 "Executed: result = df[df.age > 35] (Viewing Mode)" } ∧
    ("Executed: result = df[df.age > 35] (Viewing Mode)" : String)
      ≠ "Executed: result = df[df.age > 35]" := by
  have h := c10_message_field sampleT1 [sampleT1] "show rows where age > 35"
    "info" "head" "tail" "result = df[df.age > 35]" none c10scope
    { message := "Executed: result = df[df.age > 35]",
      generated_code := "result = df[df.age > 35]",
      displayTable := sampleT3,
      newHistory := [sampleT1],
      sentContext := some { dfInfo := "info",
                            statsSummary := "No numeric data",
                            headSample := "head",
                            tailSample := "tail",
                            queryText := "show rows where age > 35" },
      internalMessage := "Executed: result = df[df.age > 35] (Viewing Mode)" }
    (by decide) (by decide)
  exact ⟨by decide, by decide, by decide, (h.2 (by decide)).2⟩

end CleanSlate
